import Mathlib

/-!
Verification of the QuicSideChannel passive-monitor core.

The development shallowly embeds the two source files of the repository:

* src/src/main.rs: the pure frame parser (parse_udp_packet), the
  credential helper (create_dummy_server_config) and the capture /
  dispatch event loop (main);
* src/src/monitorconfig.rs: configuration loading, visible here only
  through its success / failure at startup.

Byte buffers are lists of naturals (each entry a byte value); machine
integers are naturals, with explicit mod-arithmetic where the Rust code
performs wrapping or masking.  Rust operations that can panic (index and
slice operations) are embedded in an Except monad whose error value
models an out-of-bounds access aborting the process.
-/

namespace QuicMon

/-- IPv4 address, four octets (std::net::Ipv4Addr as used by the source). -/
structure Ipv4Addr where
  o1 : Nat
  o2 : Nat
  o3 : Nat
  o4 : Nat
deriving DecidableEq

/-- Socket address: the source only ever builds V4 addresses, so the model
keeps an IPv4 address and a port. -/
structure SocketAddr where
  ip : Ipv4Addr
  port : Nat
deriving DecidableEq

/-- Big-endian 16-bit read, u16::from_be_bytes of two byte values. -/
def u16be (hi lo : Nat) : Nat := 256 * hi + lo

/-- Checked list indexing.  An out-of-bounds access is the model of a Rust
index panic, hence the error result. -/
def idx (l : List Nat) (i : Nat) : Except Unit Nat :=
  match l[i]? with
  | some v => Except.ok v
  | none => Except.error ()

/-- Checked suffix slice, the model of the Rust expression l[i..], which
panics when i exceeds the length. -/
def sliceFrom (l : List Nat) (i : Nat) : Except Unit (List Nat) :=
  if i ≤ l.length then Except.ok (l.drop i) else Except.error ()

/-- Checked range slice, the model of the Rust expression l[i..j]. -/
def sliceRange (l : List Nat) (i j : Nat) : Except Unit (List Nat) :=
  if i ≤ j ∧ j ≤ l.length then Except.ok ((l.drop i).take (j - i))
  else Except.error ()

/-- Embedding of parse_udp_packet (src/src/main.rs lines 15-49), statement
for statement and in source order.  The outer Except layer records whether
any index or slice operation was out of bounds (a panic in Rust); the
inner Option is the function's own result: none is a silent rejection. -/
def parse_udp_packet (data : List Nat) :
    Except Unit (Option (SocketAddr × SocketAddr × List Nat)) :=
  if data.length < 14 then Except.ok none else
  (sliceFrom data 14).bind fun ip_packet =>
  if ip_packet.length < 20 then Except.ok none else
  (idx ip_packet 9).bind fun proto =>
  if proto ≠ 17 then Except.ok none else
  (idx ip_packet 12).bind fun a1 =>
  (idx ip_packet 13).bind fun a2 =>
  (idx ip_packet 14).bind fun a3 =>
  (idx ip_packet 15).bind fun a4 =>
  (idx ip_packet 16).bind fun b1 =>
  (idx ip_packet 17).bind fun b2 =>
  (idx ip_packet 18).bind fun b3 =>
  (idx ip_packet 19).bind fun b4 =>
  (idx ip_packet 0).bind fun vihl =>
  let ip_header_len := (vihl % 16) * 4
  if ip_packet.length < ip_header_len + 8 then Except.ok none else
  (sliceFrom ip_packet ip_header_len).bind fun udp_packet =>
  (idx udp_packet 0).bind fun p1 =>
  (idx udp_packet 1).bind fun p2 =>
  let src_port := u16be p1 p2
  (idx udp_packet 2).bind fun q1 =>
  (idx udp_packet 3).bind fun q2 =>
  let dst_port := u16be q1 q2
  (idx udp_packet 4).bind fun l1 =>
  (idx udp_packet 5).bind fun l2 =>
  let udp_len := u16be l1 l2
  if udp_len < 8 ∨ udp_packet.length < udp_len then Except.ok none else
  (sliceRange udp_packet 8 udp_len).bind fun payload =>
  Except.ok (some (⟨⟨a1, a2, a3, a4⟩, src_port⟩, ⟨⟨b1, b2, b3, b4⟩, dst_port⟩, payload))

/-- Big-endian 16-bit write, the two bytes of a 16-bit value. -/
def be16 (n : Nat) : List Nat := [n / 256 % 256, n % 256]

/-- A well-formed synthetic frame: a 14-byte link header, an option-free
IPv4 header (version/IHL byte 0x45, protocol 17) carrying the two
addresses, a UDP header with the two ports and a length field of
payload length + 8, then the payload and any trailing link padding. -/
def mkFrame (src dst : SocketAddr) (payload pad : List Nat) : List Nat :=
  List.replicate 14 0 ++
  ([69, 0, 0, 0, 0, 0, 0, 0, 0, 17, 0, 0] ++
    [src.ip.o1, src.ip.o2, src.ip.o3, src.ip.o4] ++
    [dst.ip.o1, dst.ip.o2, dst.ip.o3, dst.ip.o4]) ++
  (be16 src.port ++ be16 dst.port ++ be16 (payload.length + 8) ++ [0, 0]) ++
  payload ++ pad

/-- Declared IPv4 header length of a frame: the low 4 bits of the first
network-header byte (byte 14 of the frame), times 4. -/
def ihl (data : List Nat) : Nat := (data.getD 14 0 % 16) * 4

/-- Offset of the transport header inside the frame. -/
def udpOff (data : List Nat) : Nat := 14 + ihl data

/-- Declared 16-bit transport length field, read big-endian at offset 4 of
the transport header. -/
def udpLenF (data : List Nat) : Nat :=
  u16be (data.getD (udpOff data + 4) 0) (data.getD (udpOff data + 5) 0)

/-- Source socket address encoded in a frame (network-header bytes 12-15
and the first two transport-header bytes). -/
def srcOf (data : List Nat) : SocketAddr :=
  ⟨⟨data.getD 26 0, data.getD 27 0, data.getD 28 0, data.getD 29 0⟩,
    u16be (data.getD (udpOff data) 0) (data.getD (udpOff data + 1) 0)⟩

/-- Destination socket address encoded in a frame. -/
def dstOf (data : List Nat) : SocketAddr :=
  ⟨⟨data.getD 30 0, data.getD 31 0, data.getD 32 0, data.getD 33 0⟩,
    u16be (data.getD (udpOff data + 2) 0) (data.getD (udpOff data + 3) 0)⟩

/-- Payload encoded in a frame: the transport-header bytes from offset 8
up to the declared length. -/
def payloadOf (data : List Nat) : List Nat :=
  (data.drop (udpOff data + 8)).take (udpLenF data - 8)

/-! Event loop model.

The loop in main (src/src/main.rs lines 86-123) drives a quinn-proto
Endpoint, which is an external crate consumed through the contract of
spec section 4.3.  The endpoint, its connection registry and the
credential generator are therefore modelled from the spec; everything
else (control flow of main, the question-mark propagation on accept,
the discarded filter result, the while-let exit on a read error) is
translated from the source. -/

/-- Lifecycle state of a tracked connection (spec section 3). -/
inductive ConnState
  | Pending
  | Active
  | Closed
deriving DecidableEq

/-- Modelled from the spec: the three dispositioned outcomes of
quinn_proto::Endpoint::handle that the source matches on
(src/src/main.rs lines 91-119). -/
inductive DatagramEvent
  | NewConnection (attempt : SocketAddr)
  | ConnectionEvent (handle : Nat)
  | Response
deriving DecidableEq

/-- Association lookup of a source address in the seen list. -/
def findHandle : List (SocketAddr × Nat) → SocketAddr → Option Nat
  | [], _ => none
  | (b, h) :: t, a => if a = b then some h else findHandle t a

/-- Modelled from the spec: the state of the external quinn-proto
Endpoint.  seen records which remote addresses already belong to a
connection, connections is the registry of admitted connections by
handle, nextHandle is the supply of never-reused handles. -/
structure EndpointM where
  seen : List (SocketAddr × Nat)
  connections : List (Nat × ConnState)
  nextHandle : Nat
deriving DecidableEq

/-- Modelled from the spec: Endpoint::handle classifies a datagram.  A
datagram from a previously unseen source address is a new connection
attempt; one from a seen address is an event for that connection
(spec section 4.3). -/
def EndpointM.handle (ep : EndpointM) (src : SocketAddr) : Option DatagramEvent :=
  match findHandle ep.seen src with
  | some h => some (DatagramEvent.ConnectionEvent h)
  | none => some (DatagramEvent.NewConnection src)

/-- Modelled from the spec: Endpoint::accept admits an attempt, assigning
a fresh handle and registering the connection as Active (spec section
4.3: admitting transitions the attempt into the registry as Active under
a newly assigned handle). -/
def EndpointM.accept (ep : EndpointM) (attempt : SocketAddr) : Nat × EndpointM :=
  (ep.nextHandle,
    { seen := (attempt, ep.nextHandle) :: ep.seen,
      connections := (ep.nextHandle, ConnState.Active) :: ep.connections,
      nextHandle := ep.nextHandle + 1 })

/-- State threaded through the event loop.  credCounter models the
randomness source of create_dummy_server_config: the n-th call returns
the credential with identity n, so distinct calls yield distinct
credentials (rcgen generates a fresh self-signed key pair per call).
startupCredId is the credential minted before Endpoint::new
(src/src/main.rs line 81).  admissions records, for each successful
accept, the handle and the credential identity passed to accept.
framesProcessed counts the frames the loop body consumed. -/
structure LoopState where
  ep : EndpointM
  credCounter : Nat
  startupCredId : Nat
  admissions : List (Nat × Nat)
  framesProcessed : Nat
deriving DecidableEq

/-- Loop state after startup: one credential (identity 0) was minted for
Endpoint::new, no connection admitted yet. -/
def initLoopState : LoopState :=
  { ep := { seen := [], connections := [], nextHandle := 0 },
    credCounter := 1,
    startupCredId := 0,
    admissions := [],
    framesProcessed := 0 }

/-- Result of one blocking capture read: a raw frame, or a read error. -/
inductive CapResult
  | packet (data : List Nat)
  | rderror
deriving DecidableEq

/-- Process exit status: ok models main returning Ok(()) (exit code 0),
nonzero models main returning Err or aborting (non-zero exit code). -/
inductive ExitCode
  | ok
  | nonzero
deriving DecidableEq

/-- Embedding of the while-let event loop (src/src/main.rs lines 86-123)
over a finite trace of capture-read results.  none means the trace ended
with the loop still waiting for the next frame.
A read error ends the while-let loop and main falls through to Ok(()),
so the exit code is ok.  A parse rejection silently continues.  On a
NewConnection outcome the source mints a fresh server config and calls
accept; an accept failure is propagated by the question-mark operator,
so the whole process exits nonzero.  ConnectionEvent and Response
outcomes only print and continue.  acceptOk says whether the n-th accept
call of the engine succeeds (n counted from 0). -/
def runLoop (acceptOk : Nat → Bool) : LoopState → List CapResult → Option (ExitCode × LoopState)
  | _, [] => none
  | st, CapResult.rderror :: _ => some (ExitCode.ok, st)
  | st, CapResult.packet data :: rest =>
    let st1 : LoopState := { st with framesProcessed := st.framesProcessed + 1 }
    match parse_udp_packet data with
    | Except.error _ => some (ExitCode.nonzero, st1)
    | Except.ok none => runLoop acceptOk st1 rest
    | Except.ok (some (src, _dst, _payload)) =>
      match st1.ep.handle src with
      | some (DatagramEvent.NewConnection attempt) =>
        let cred := st1.credCounter
        let st2 : LoopState := { st1 with credCounter := st1.credCounter + 1 }
        if acceptOk st2.admissions.length then
          let hc := st2.ep.accept attempt
          runLoop acceptOk
            { st2 with ep := hc.2, admissions := (hc.1, cred) :: st2.admissions } rest
        else
          some (ExitCode.nonzero, st2)
      | some (DatagramEvent.ConnectionEvent _) => runLoop acceptOk st1 rest
      | some DatagramEvent.Response => runLoop acceptOk st1 rest
      | none => runLoop acceptOk st1 rest

/-- Embedding of main (src/src/main.rs lines 69-126).  cfgOk is whether
MonitorConfig::from_file succeeded, deviceOk whether the capture device
could be created and opened; both failures are propagated by the
question-mark operator before the loop starts.  The third argument is
whether capture.filter succeeded: the source discards that result
(let _ = capture.filter(..)), so the model ignores it.  The returned
state is none when the loop was never entered. -/
def mainModel : Bool → Bool → Bool → (Nat → Bool) → List CapResult →
    Option (ExitCode × Option LoopState)
  | false, _, _, _, _ => some (ExitCode.nonzero, none)
  | true, false, _, _, _ => some (ExitCode.nonzero, none)
  | true, true, _filterOk, acceptOk, trace =>
    match runLoop acceptOk initLoopState trace with
    | none => none
    | some (c, st) => some (c, some st)

/-- Engine that accepts every connection. -/
def alwaysOk : Nat → Bool := fun _ => true

/-- Engine that refuses every connection (resource exhaustion). -/
def neverOk : Nat → Bool := fun _ => false

/-- Exit code component of a main run. -/
def exitCodeOf (r : Option (ExitCode × Option LoopState)) : Option ExitCode :=
  r.map Prod.fst

/-- Final loop state of a main run, defaulting to the startup state. -/
def finalStateOf (r : Option (ExitCode × Option LoopState)) : LoopState :=
  match r with
  | some (_, some st) => st
  | _ => initLoopState

/-- Invariant tying the credential supply to the admission log: the
startup credential is older than every credential the loop can still
mint, and every admitted credential is strictly between the startup
credential and the supply, all pairwise distinct. -/
def CredInv (st : LoopState) : Prop :=
  st.startupCredId < st.credCounter ∧
  (∀ pr ∈ st.admissions, st.startupCredId < pr.2 ∧ pr.2 < st.credCounter) ∧
  (st.admissions.map Prod.snd).Pairwise (fun a b => a ≠ b)

/-! Concrete inputs used by witnesses and counterexamples. -/

/-- Example source address, port 5000. -/
def exSrc : SocketAddr := ⟨⟨192, 168, 1, 2⟩, 5000⟩

/-- Example destination address, port 443. -/
def exDst : SocketAddr := ⟨⟨10, 0, 0, 1⟩, 443⟩

/-- Example 10-byte payload. -/
def exPayload : List Nat := [1, 2, 3, 4, 5, 6, 7, 8, 9, 10]

/-- Eight bytes of link padding, bringing the example frame to 60 bytes. -/
def exPad8 : List Nat := [0, 0, 0, 0, 0, 0, 0, 0]

/-- The 60-byte example frame of spec section 8 scenario 1. -/
def exFrame60 : List Nat := mkFrame exSrc exDst exPayload exPad8

/-- A second source address, distinct from exSrc. -/
def exSrcB : SocketAddr := ⟨⟨192, 168, 1, 3⟩, 6000⟩

/-- A 52-byte handshake frame from exSrc. -/
def exFrameA : List Nat := mkFrame exSrc exDst exPayload []

/-- A 52-byte handshake frame from exSrcB. -/
def exFrameB : List Nat := mkFrame exSrcB exDst exPayload []

/-- A 34-byte buffer that parse_udp_packet accepts: its declared network
header length is 0 (low nibble of byte 14 is 0), so the transport header
overlaps the 20-byte network header. -/
def c3buf : List Nat :=
  List.replicate 14 0 ++ [64, 0, 0, 0, 0, 8, 0, 0, 0, 17, 0, 0, 1, 2, 3, 4, 5, 6, 7, 8]

/-- A 48-byte buffer whose network-layer protocol byte (byte 23) is 6. -/
def c7buf : List Nat :=
  List.replicate 14 0 ++ [69, 0, 0, 0, 0, 0, 0, 0, 0, 6] ++ List.replicate 24 0

/-- A 34-byte UDP buffer whose declared network-header length (15 * 4) is
larger than the bytes that remain. -/
def c8buf : List Nat :=
  List.replicate 14 0 ++ [79, 0, 0, 0, 0, 0, 0, 0, 0, 17] ++ List.replicate 10 0

/-- Exit code of a loop run. -/
def exitOfRun (r : Option (ExitCode × LoopState)) : Option ExitCode := r.map Prod.fst

/-- Final state of a loop run, defaulting to the given state. -/
def stateOfRun (r : Option (ExitCode × LoopState)) (dflt : LoopState) : LoopState :=
  match r with
  | some (_, st) => st
  | none => dflt

/-! Helper lemmas about the parser. -/

theorem idx_ok (l : List Nat) (i : Nat) (h : i < l.length) :
    idx l i = Except.ok (l.getD i 0) := by
  simp [idx, List.getElem?_eq_getElem h, List.getD_eq_getElem _ _ h]

theorem sliceFrom_ok (l : List Nat) (i : Nat) (h : i ≤ l.length) :
    sliceFrom l i = Except.ok (l.drop i) := by
  simp [sliceFrom, h]

theorem sliceRange_ok (l : List Nat) (i j : Nat) (h1 : i ≤ j) (h2 : j ≤ l.length) :
    sliceRange l i j = Except.ok ((l.drop i).take (j - i)) := by
  simp [sliceRange, h1, h2]

theorem getD_drop (l : List Nat) (i j : Nat) (h : i + j < l.length) :
    (l.drop i).getD j 0 = l.getD (i + j) 0 := by
  have h2 : j < (l.drop i).length := by simp; omega
  rw [List.getD_eq_getElem _ _ h2, List.getD_eq_getElem _ _ h, List.getElem_drop]

/-- Buffers shorter than 34 bytes are always rejected: the first two
length guards alone decide them. -/
theorem parse_short (data : List Nat) (h : data.length < 34) :
    parse_udp_packet data = Except.ok none := by
  unfold parse_udp_packet
  by_cases h14 : data.length < 14
  · rw [if_pos h14]
  · rw [if_neg h14, sliceFrom_ok _ _ (by omega)]
    simp only [Except.bind]
    rw [List.length_drop, if_pos (by omega)]

/-- Complete characterisation of the parser on buffers long enough to
pass the two fixed length guards: the protocol check, the header-length
guard, the transport-length guard and the final result, all in terms of
the frame-reading functions. -/
theorem parse_unfold (data : List Nat) (h34 : 34 ≤ data.length) :
    parse_udp_packet data =
      if data.getD 23 0 ≠ 17 then Except.ok none else
      if data.length - 14 < ihl data + 8 then Except.ok none else
      if udpLenF data < 8 ∨ data.length - 14 - ihl data < udpLenF data then Except.ok none else
      Except.ok (some (srcOf data, dstOf data, payloadOf data)) := by
  unfold parse_udp_packet
  simp only [ihl, udpOff, udpLenF, srcOf, dstOf, payloadOf]
  rw [if_neg (by omega), sliceFrom_ok _ _ (by omega)]
  simp only [Except.bind]
  rw [List.length_drop]
  rw [if_neg (by omega)]
  rw [idx_ok _ _ (by simp only [List.length_drop]; omega)]
  simp only [Except.bind]
  rw [getD_drop _ _ _ (by omega)]
  simp only [Nat.reduceAdd]
  by_cases hproto : data.getD 23 0 = 17
  · rw [if_neg (not_not_intro hproto), if_neg (not_not_intro hproto)]
    rw [idx_ok _ _ (by simp only [List.length_drop]; omega)]
    simp only [Except.bind]
    rw [idx_ok _ _ (by simp only [List.length_drop]; omega)]
    simp only [Except.bind]
    rw [idx_ok _ _ (by simp only [List.length_drop]; omega)]
    simp only [Except.bind]
    rw [idx_ok _ _ (by simp only [List.length_drop]; omega)]
    simp only [Except.bind]
    rw [idx_ok _ _ (by simp only [List.length_drop]; omega)]
    simp only [Except.bind]
    rw [idx_ok _ _ (by simp only [List.length_drop]; omega)]
    simp only [Except.bind]
    rw [idx_ok _ _ (by simp only [List.length_drop]; omega)]
    simp only [Except.bind]
    rw [idx_ok _ _ (by simp only [List.length_drop]; omega)]
    simp only [Except.bind]
    rw [idx_ok _ _ (by simp only [List.length_drop]; omega)]
    simp only [Except.bind]
    rw [getD_drop _ _ _ (by omega), getD_drop _ _ _ (by omega), getD_drop _ _ _ (by omega),
      getD_drop _ _ _ (by omega), getD_drop _ _ _ (by omega), getD_drop _ _ _ (by omega),
      getD_drop _ _ _ (by omega), getD_drop _ _ _ (by omega), getD_drop _ _ _ (by omega)]
    simp only [Nat.reduceAdd]
    by_cases hhl : data.length - 14 < data.getD 14 0 % 16 * 4 + 8
    · rw [if_pos hhl, if_pos hhl]
    · rw [if_neg hhl, if_neg hhl]
      rw [sliceFrom_ok _ _ (by simp only [List.length_drop]; omega)]
      simp only [Except.bind]
      rw [List.drop_drop]
      rw [idx_ok _ _ (by simp only [List.length_drop]; omega)]
      simp only [Except.bind]
      rw [idx_ok _ _ (by simp only [List.length_drop]; omega)]
      simp only [Except.bind]
      rw [idx_ok _ _ (by simp only [List.length_drop]; omega)]
      simp only [Except.bind]
      rw [idx_ok _ _ (by simp only [List.length_drop]; omega)]
      simp only [Except.bind]
      rw [idx_ok _ _ (by simp only [List.length_drop]; omega)]
      simp only [Except.bind]
      rw [idx_ok _ _ (by simp only [List.length_drop]; omega)]
      simp only [Except.bind]
      rw [getD_drop _ _ _ (by omega), getD_drop _ _ _ (by omega), getD_drop _ _ _ (by omega),
        getD_drop _ _ _ (by omega), getD_drop _ _ _ (by omega), getD_drop _ _ _ (by omega)]
      simp only [Nat.add_zero]
      rw [List.length_drop, Nat.sub_sub]
      by_cases hul : u16be (data.getD (14 + data.getD 14 0 % 16 * 4 + 4) 0)
          (data.getD (14 + data.getD 14 0 % 16 * 4 + 5) 0) < 8 ∨
          data.length - (14 + data.getD 14 0 % 16 * 4) <
            u16be (data.getD (14 + data.getD 14 0 % 16 * 4 + 4) 0)
              (data.getD (14 + data.getD 14 0 % 16 * 4 + 5) 0)
      · rw [if_pos hul, if_pos hul]
      · rw [if_neg hul, if_neg hul]
        rw [sliceRange_ok _ _ _ (by omega) (by simp only [List.length_drop]; omega)]
        simp only [Except.bind]
        rw [List.drop_drop]
  · rw [if_pos hproto, if_pos hproto]

/-! Reading lemmas about mkFrame, feeding the round-trip theorem. -/

theorem mkFrame_length (src dst : SocketAddr) (payload pad : List Nat) :
    (mkFrame src dst payload pad).length = 42 + (payload.length + pad.length) := by
  simp [mkFrame, be16]
  omega

theorem proto_mkFrame (src dst : SocketAddr) (payload pad : List Nat) :
    (mkFrame src dst payload pad).getD 23 0 = 17 := by
  simp [mkFrame, be16]

theorem ihl_mkFrame (src dst : SocketAddr) (payload pad : List Nat) :
    ihl (mkFrame src dst payload pad) = 20 := by
  simp [ihl, mkFrame, be16]

theorem udpOff_mkFrame (src dst : SocketAddr) (payload pad : List Nat) :
    udpOff (mkFrame src dst payload pad) = 34 := by
  rw [udpOff, ihl_mkFrame]

theorem udpLenF_mkFrame (src dst : SocketAddr) (payload pad : List Nat)
    (hl : payload.length + 8 < 65536) :
    udpLenF (mkFrame src dst payload pad) = payload.length + 8 := by
  rw [udpLenF, udpOff_mkFrame]
  simp only [Nat.reduceAdd]
  have h38 : (mkFrame src dst payload pad).getD 38 0 = (payload.length + 8) / 256 % 256 := by
    simp [mkFrame, be16]
  have h39 : (mkFrame src dst payload pad).getD 39 0 = (payload.length + 8) % 256 := by
    simp [mkFrame, be16]
  rw [h38, h39, u16be]
  omega

theorem srcOf_mkFrame (src dst : SocketAddr) (payload pad : List Nat)
    (hs : src.port < 65536) :
    srcOf (mkFrame src dst payload pad) = src := by
  obtain ⟨⟨s1, s2, s3, s4⟩, sp⟩ := src
  have hs' : sp < 65536 := hs
  rw [srcOf, udpOff_mkFrame]
  simp only [Nat.reduceAdd]
  have h26 : (mkFrame ⟨⟨s1, s2, s3, s4⟩, sp⟩ dst payload pad).getD 26 0 = s1 := by
    simp [mkFrame, be16]
  have h27 : (mkFrame ⟨⟨s1, s2, s3, s4⟩, sp⟩ dst payload pad).getD 27 0 = s2 := by
    simp [mkFrame, be16]
  have h28 : (mkFrame ⟨⟨s1, s2, s3, s4⟩, sp⟩ dst payload pad).getD 28 0 = s3 := by
    simp [mkFrame, be16]
  have h29 : (mkFrame ⟨⟨s1, s2, s3, s4⟩, sp⟩ dst payload pad).getD 29 0 = s4 := by
    simp [mkFrame, be16]
  have h34 : (mkFrame ⟨⟨s1, s2, s3, s4⟩, sp⟩ dst payload pad).getD 34 0 = sp / 256 % 256 := by
    simp [mkFrame, be16]
  have h35 : (mkFrame ⟨⟨s1, s2, s3, s4⟩, sp⟩ dst payload pad).getD 35 0 = sp % 256 := by
    simp [mkFrame, be16]
  rw [h26, h27, h28, h29, h34, h35]
  have hport : u16be (sp / 256 % 256) (sp % 256) = sp := by
    rw [u16be]
    omega
  rw [hport]

theorem dstOf_mkFrame (src dst : SocketAddr) (payload pad : List Nat)
    (hd : dst.port < 65536) :
    dstOf (mkFrame src dst payload pad) = dst := by
  obtain ⟨⟨d1, d2, d3, d4⟩, dp⟩ := dst
  have hd' : dp < 65536 := hd
  rw [dstOf, udpOff_mkFrame]
  simp only [Nat.reduceAdd]
  have h30 : (mkFrame src ⟨⟨d1, d2, d3, d4⟩, dp⟩ payload pad).getD 30 0 = d1 := by
    simp [mkFrame, be16]
  have h31 : (mkFrame src ⟨⟨d1, d2, d3, d4⟩, dp⟩ payload pad).getD 31 0 = d2 := by
    simp [mkFrame, be16]
  have h32 : (mkFrame src ⟨⟨d1, d2, d3, d4⟩, dp⟩ payload pad).getD 32 0 = d3 := by
    simp [mkFrame, be16]
  have h33 : (mkFrame src ⟨⟨d1, d2, d3, d4⟩, dp⟩ payload pad).getD 33 0 = d4 := by
    simp [mkFrame, be16]
  have h36 : (mkFrame src ⟨⟨d1, d2, d3, d4⟩, dp⟩ payload pad).getD 36 0 = dp / 256 % 256 := by
    simp [mkFrame, be16]
  have h37 : (mkFrame src ⟨⟨d1, d2, d3, d4⟩, dp⟩ payload pad).getD 37 0 = dp % 256 := by
    simp [mkFrame, be16]
  rw [h30, h31, h32, h33, h36, h37]
  have hport : u16be (dp / 256 % 256) (dp % 256) = dp := by
    rw [u16be]
    omega
  rw [hport]

theorem payloadOf_mkFrame (src dst : SocketAddr) (payload pad : List Nat)
    (hl : payload.length + 8 < 65536) :
    payloadOf (mkFrame src dst payload pad) = payload := by
  rw [payloadOf, udpOff_mkFrame, udpLenF_mkFrame src dst payload pad hl]
  simp only [Nat.reduceAdd, Nat.add_sub_cancel]
  have hdrop : (mkFrame src dst payload pad).drop 42 = payload ++ pad := by
    simp [mkFrame, be16]
  rw [hdrop, List.take_left]

/-- Round trip: the parser recovers exactly the addresses, ports and
payload encoded by mkFrame, for any link padding. -/
theorem parse_mkFrame (src dst : SocketAddr) (payload pad : List Nat)
    (hs : src.port < 65536) (hd : dst.port < 65536)
    (hl : payload.length + 8 < 65536) :
    parse_udp_packet (mkFrame src dst payload pad) =
      Except.ok (some (src, dst, payload)) := by
  have hlen := mkFrame_length src dst payload pad
  rw [parse_unfold _ (by omega)]
  rw [if_neg (not_not_intro (proto_mkFrame src dst payload pad))]
  rw [if_neg (by rw [mkFrame_length, ihl_mkFrame]; omega)]
  rw [if_neg (by
    rw [udpLenF_mkFrame src dst payload pad hl, mkFrame_length, ihl_mkFrame]
    omega)]
  rw [srcOf_mkFrame src dst payload pad hs, dstOf_mkFrame src dst payload pad hd,
    payloadOf_mkFrame src dst payload pad hl]

/-! Helper lemmas about the event loop. -/

/-- A capture read error terminates the while-let loop at once and main
returns Ok, whatever the state. -/
theorem runLoop_rderror (acceptOk : Nat → Bool) (st : LoopState) (rest : List CapResult) :
    runLoop acceptOk st (CapResult.rderror :: rest) = some (ExitCode.ok, st) := rfl

/-- The loop can only return with exit code ok by hitting a capture read
error: every other way out of the loop is the nonzero exit of an error
propagation. -/
theorem runLoop_ok_mem (acceptOk : Nat → Bool) (tr : List CapResult) :
    ∀ st st', runLoop acceptOk st tr = some (ExitCode.ok, st') →
      CapResult.rderror ∈ tr := by
  induction tr with
  | nil => intro st st' h; simp [runLoop] at h
  | cons hd tl ih =>
    intro st st' h
    cases hd with
    | rderror => exact List.mem_cons_self _ _
    | packet data =>
      refine List.mem_cons_of_mem _ ?_
      simp only [runLoop] at h
      split at h
      · simp at h
      · exact ih _ _ h
      · split at h
        · split at h
          · exact ih _ _ h
          · simp at h
        · exact ih _ _ h
        · exact ih _ _ h
        · exact ih _ _ h

/-- Every step of the loop preserves the credential invariant. -/
theorem runLoop_credInv (acceptOk : Nat → Bool) (tr : List CapResult) :
    ∀ st c st', CredInv st → runLoop acceptOk st tr = some (c, st') → CredInv st' := by
  induction tr with
  | nil => intro st c st' _ h; simp [runLoop] at h
  | cons hd tl ih =>
    intro st c st' hinv h
    cases hd with
    | rderror =>
      rw [runLoop_rderror] at h
      simp only [Option.some.injEq, Prod.mk.injEq] at h
      exact h.2 ▸ hinv
    | packet data =>
      simp only [runLoop] at h
      split at h
      · simp only [Option.some.injEq, Prod.mk.injEq] at h
        obtain ⟨-, rfl⟩ := h
        exact hinv
      · refine ih _ _ _ ?_ h
        exact hinv
      · split at h
        · split at h
          · refine ih _ _ _ ?_ h
            obtain ⟨h1, h2, h3⟩ := hinv
            refine ⟨Nat.lt_succ_of_lt h1, ?_, ?_⟩
            · intro pr hpr
              rcases List.mem_cons.mp hpr with rfl | hpr2
              · exact ⟨h1, Nat.lt_succ_self _⟩
              · exact ⟨(h2 pr hpr2).1, Nat.lt_succ_of_lt (h2 pr hpr2).2⟩
            · refine List.Pairwise.cons ?_ h3
              intro x hx
              rcases List.mem_map.mp hx with ⟨pr, hpr2, rfl⟩
              have hlt := (h2 pr hpr2).2
              omega
          · simp only [Option.some.injEq, Prod.mk.injEq] at h
            obtain ⟨-, rfl⟩ := h
            obtain ⟨h1, h2, h3⟩ := hinv
            exact ⟨Nat.lt_succ_of_lt h1,
              fun pr hpr => ⟨(h2 pr hpr).1, Nat.lt_succ_of_lt (h2 pr hpr).2⟩, h3⟩
        · refine ih _ _ _ ?_ h
          exact hinv
        · refine ih _ _ _ ?_ h
          exact hinv
        · refine ih _ _ _ ?_ h
          exact hinv

/-! Claim theorems. -/

/-- C3 counterexample: a concrete 34-byte buffer (shorter than 42 bytes)
on which parse_udp_packet returns Some rather than None: its declared
network-header length is 0, so the header-length guard passes with the
transport header overlapping the network header. -/
theorem c3_counterexample :
    c3buf.length = 34 ∧
    parse_udp_packet c3buf =
      Except.ok (some (⟨⟨1, 2, 3, 4⟩, 16384⟩, ⟨⟨5, 6, 7, 8⟩, 0⟩, [])) :=
  ⟨rfl, rfl⟩

/-- C3 (amended): for every input byte buffer strictly shorter than 34
bytes (14 link-layer + 20 network-layer bytes), parse_udp_packet returns
None regardless of the buffer contents.  Buffers of 34 to 41 bytes can be
accepted when the declared header length is below 20, because the code
never checks the declared length against the 20-byte minimum. -/
theorem c3_short_buffer_rejected (data : List Nat) (h : data.length < 34) :
    parse_udp_packet data = Except.ok none :=
  parse_short data h

/-- Witness for C3 (amended) at a concrete 33-byte buffer. -/
theorem c3_short_buffer_rejected_witness :
    parse_udp_packet (List.replicate 33 7) = Except.ok none :=
  c3_short_buffer_rejected (List.replicate 33 7) (by decide)

/-- C6: for every well-formed frame (14-byte link header, option-free
IPv4 header with protocol 17, consistent lengths), parse_udp_packet
returns Some of exactly the source socket address, the destination
socket address and the payload bytes encoded in the frame. -/
theorem c6_roundtrip (src dst : SocketAddr) (payload pad : List Nat)
    (hs : src.port < 65536) (hd : dst.port < 65536)
    (hl : payload.length + 8 < 65536) :
    parse_udp_packet (mkFrame src dst payload pad) =
      Except.ok (some (src, dst, payload)) :=
  parse_mkFrame src dst payload pad hs hd hl

/-- Witness for C6: the 60-byte example frame (source port 5000,
destination port 443, transport length field 18, 10-byte payload) parses
to exactly those two socket addresses and that payload. -/
theorem c6_roundtrip_witness :
    exFrame60.length = 60 ∧
    parse_udp_packet exFrame60 = Except.ok (some (exSrc, exDst, exPayload)) :=
  ⟨rfl, c6_roundtrip exSrc exDst exPayload exPad8 (by decide) (by decide) (by decide)⟩

/-- C7: any frame whose network-layer protocol byte (byte 9 of the
network header, byte 23 of the frame) is not 17 is rejected, however
well-formed the rest of the frame is. -/
theorem c7_non_udp_rejected (data : List Nat) (p : Nat)
    (hp : data[23]? = some p) (hne : p ≠ 17) :
    parse_udp_packet data = Except.ok none := by
  have h24 : 23 < data.length := by
    by_contra hc
    rw [List.getElem?_eq_none (by omega)] at hp
    cases hp
  by_cases h34 : data.length < 34
  · exact parse_short data h34
  · rw [parse_unfold data (by omega)]
    have hv : data.getD 23 0 = p := by
      rw [List.getD_eq_getElem _ _ h24]
      rw [List.getElem?_eq_getElem h24] at hp
      exact Option.some.inj hp
    rw [if_pos (by rw [hv]; exact hne)]

/-- Witness for C7 at a concrete 48-byte frame with protocol byte 6. -/
theorem c7_non_udp_rejected_witness :
    parse_udp_packet c7buf = Except.ok none :=
  c7_non_udp_rejected c7buf 6 (by decide) (by decide)

/-- C8: on UDP frames long enough for the fixed headers, the transport
header offset is the low 4 bits of the first network-header byte times 4
(the definition of ihl); the frame is rejected when fewer than
header-length + 8 bytes remain; it is rejected when the declared 16-bit
transport length is below 8 or exceeds the remaining bytes; and otherwise
the returned payload is exactly the transport-header bytes from offset 8
up to the declared length. -/
theorem c8_header_and_length_checks (data : List Nat)
    (h34 : 34 ≤ data.length) (hp : data.getD 23 0 = 17) :
    (ihl data = (data.getD 14 0 % 16) * 4) ∧
    (data.length - 14 < ihl data + 8 → parse_udp_packet data = Except.ok none) ∧
    (ihl data + 8 ≤ data.length - 14 →
      (udpLenF data < 8 ∨ data.length - 14 - ihl data < udpLenF data →
        parse_udp_packet data = Except.ok none) ∧
      (8 ≤ udpLenF data → udpLenF data ≤ data.length - 14 - ihl data →
        ∃ s d, parse_udp_packet data =
          Except.ok (some (s, d,
            (data.drop (14 + ihl data + 8)).take (udpLenF data - 8))))) := by
  rw [parse_unfold data h34]
  refine ⟨rfl, ?_, ?_⟩
  · intro hlt
    rw [if_neg (not_not_intro hp), if_pos hlt]
  · intro hge
    constructor
    · intro hbad
      rw [if_neg (not_not_intro hp), if_neg (by omega), if_pos hbad]
    · intro h8 hle
      refine ⟨srcOf data, dstOf data, ?_⟩
      rw [if_neg (not_not_intro hp), if_neg (by omega), if_neg (by omega)]
      rfl

/-- Witness for C8 at a concrete 34-byte buffer whose declared header
length (60) exceeds the 20 remaining bytes, hence rejection. -/
theorem c8_header_and_length_checks_witness :
    parse_udp_packet c8buf = Except.ok none :=
  (c8_header_and_length_checks c8buf (by decide) (by decide)).2.1 (by decide)

/-- C9: the parser never performs an out-of-bounds access (it always
returns an ok value, never the error that models a panic), and any
returned payload is a contiguous in-bounds slice of the input buffer:
it starts at the transport payload offset and ends within the buffer. -/
theorem c9_no_panic_payload_in_bounds (data : List Nat) :
    (∃ r, parse_udp_packet data = Except.ok r) ∧
    (∀ s d p, parse_udp_packet data = Except.ok (some (s, d, p)) →
      udpOff data + 8 + p.length ≤ data.length ∧
      p = (data.drop (udpOff data + 8)).take p.length) := by
  by_cases h34 : data.length < 34
  · refine ⟨⟨none, parse_short data h34⟩, ?_⟩
    intro s d p h
    rw [parse_short data h34] at h
    simp at h
  · rw [parse_unfold data (by omega)]
    by_cases hproto : data.getD 23 0 ≠ 17
    · rw [if_pos hproto]
      exact ⟨⟨none, rfl⟩, fun s d p h => by simp at h⟩
    · rw [if_neg hproto]
      by_cases hhl : data.length - 14 < ihl data + 8
      · rw [if_pos hhl]
        exact ⟨⟨none, rfl⟩, fun s d p h => by simp at h⟩
      · rw [if_neg hhl]
        by_cases hul : udpLenF data < 8 ∨ data.length - 14 - ihl data < udpLenF data
        · rw [if_pos hul]
          exact ⟨⟨none, rfl⟩, fun s d p h => by simp at h⟩
        · rw [if_neg hul]
          refine ⟨⟨some (srcOf data, dstOf data, payloadOf data), rfl⟩, ?_⟩
          intro s d p h
          simp only [Except.ok.injEq, Option.some.injEq, Prod.mk.injEq] at h
          obtain ⟨-, -, rfl⟩ := h
          have hplen : (payloadOf data).length = udpLenF data - 8 := by
            simp only [payloadOf, List.length_take, List.length_drop, udpOff]
            omega
          constructor
          · simp only [udpOff] at hplen ⊢
            omega
          · rw [hplen]
            rfl

/-- Witness for C9: the payload of the 60-byte example frame starts at
offset 42 and its 10 bytes lie inside the 60-byte buffer. -/
theorem c9_no_panic_payload_in_bounds_witness :
    udpOff exFrame60 + 8 + exPayload.length ≤ exFrame60.length ∧
    exPayload = (exFrame60.drop (udpOff exFrame60 + 8)).take exPayload.length :=
  (c9_no_panic_payload_in_bounds exFrame60).2 exSrc exDst exPayload rfl

/-- C1 counterexample: a capture read error does not make the process
exit nonzero.  The while-let loop simply ends and main returns Ok(()),
so the run that hits a read error immediately after startup exits with
code zero. -/
theorem c1_counterexample :
    mainModel true true true alwaysOk [CapResult.rderror] =
      some (ExitCode.ok, some initLoopState) ∧
    exitCodeOf (mainModel true true true alwaysOk [CapResult.rderror]) ≠
      some ExitCode.nonzero :=
  ⟨rfl, by decide⟩

/-- C1 (amended): when the capture read fails the event loop does
terminate, but the process exits with code zero, the same code as a
clean shutdown; conversely, once the loop has started, exit code zero
arises only from a capture read failure in the trace. -/
theorem c1_read_error_exits_zero (acceptOk : Nat → Bool) (st st' : LoopState)
    (rest tr : List CapResult)
    (h : runLoop acceptOk st tr = some (ExitCode.ok, st')) :
    runLoop acceptOk st (CapResult.rderror :: rest) = some (ExitCode.ok, st) ∧
    CapResult.rderror ∈ tr :=
  ⟨runLoop_rderror acceptOk st rest, runLoop_ok_mem acceptOk tr st st' h⟩

/-- Witness for C1 (amended) on the one-element error trace. -/
theorem c1_read_error_exits_zero_witness :
    runLoop alwaysOk initLoopState [CapResult.rderror] =
      some (ExitCode.ok, initLoopState) ∧
    CapResult.rderror ∈ [CapResult.rderror] :=
  c1_read_error_exits_zero alwaysOk initLoopState initLoopState []
    [CapResult.rderror] rfl

/-- C5 counterexample: a failing filter expression does not stop the
process before the loop: with the filter result false, the loop still
runs, consumes one frame, and the run exits with code zero on the
following read error instead of exiting nonzero before the loop. -/
theorem c5_counterexample :
    (finalStateOf (mainModel true true false alwaysOk
      [CapResult.packet exFrame60, CapResult.rderror])).framesProcessed = 1 ∧
    exitCodeOf (mainModel true true false alwaysOk
      [CapResult.packet exFrame60, CapResult.rderror]) = some ExitCode.ok :=
  ⟨rfl, rfl⟩

/-- C5 (amended): a bad interface (capture device creation or open
failure) is fatal before the loop starts and the process exits nonzero;
a failure to apply the configured filter, however, is discarded
(let _ = capture.filter(..)) and has no effect on the run at all. -/
theorem c5_device_fatal_filter_ignored (filterOk filterOk' : Bool)
    (acceptOk : Nat → Bool) (tr : List CapResult) :
    mainModel true false filterOk acceptOk tr = some (ExitCode.nonzero, none) ∧
    mainModel true true filterOk acceptOk tr =
      mainModel true true filterOk' acceptOk tr :=
  ⟨rfl, rfl⟩

/-- C2 counterexample: an admission failure is fatal in the source: with
an engine that refuses to construct connections, the run dies on the
first frame with a nonzero exit and never processes the second frame,
instead of recovering and continuing. -/
theorem c2_counterexample :
    exitCodeOf (mainModel true true true neverOk
      [CapResult.packet exFrameA, CapResult.packet exFrameB, CapResult.rderror]) =
      some ExitCode.nonzero ∧
    (finalStateOf (mainModel true true true neverOk
      [CapResult.packet exFrameA, CapResult.packet exFrameB,
        CapResult.rderror])).framesProcessed = 1 :=
  ⟨rfl, rfl⟩

/-- C2 (amended): when a datagram yields a NewConnection outcome and the
engine fails to admit it, the question-mark operator propagates the
error: the event loop terminates at that frame and the process exits
nonzero (after having minted the per-admission credential). -/
theorem c2_admission_failure_fatal (acceptOk : Nat → Bool) (st : LoopState)
    (data : List Nat) (rest : List CapResult) (src dst : SocketAddr)
    (payload : List Nat)
    (hparse : parse_udp_packet data = Except.ok (some (src, dst, payload)))
    (hnew : findHandle st.ep.seen src = none)
    (hacc : acceptOk st.admissions.length = false) :
    runLoop acceptOk st (CapResult.packet data :: rest) =
      some (ExitCode.nonzero,
        { st with framesProcessed := st.framesProcessed + 1,
                  credCounter := st.credCounter + 1 }) := by
  simp only [runLoop, hparse, EndpointM.handle, hnew, hacc]
  simp

/-- Witness for C2 (amended): the refusing engine on the concrete
handshake frame from exSrc. -/
theorem c2_admission_failure_fatal_witness :
    runLoop neverOk initLoopState [CapResult.packet exFrameA] =
      some (ExitCode.nonzero,
        { initLoopState with
            framesProcessed := initLoopState.framesProcessed + 1,
            credCounter := initLoopState.credCounter + 1 }) :=
  c2_admission_failure_fatal neverOk initLoopState exFrameA [] exSrc exDst
    exPayload rfl rfl rfl

/-- C4: admitting a new connection attempt registers it as Active under a
newly assigned handle; after handshake frames from two distinct remote
addresses are both admitted, the registry holds the two distinct handles
0 and 1, both Active.  The quinn-proto engine is external to the source,
so its handle / accept contract and its registry are modelled from spec
section 4.3. -/
theorem c4_two_admissions_two_handles (s1 s2 dst : SocketAddr)
    (pl1 pl2 : List Nat) (acceptOk : Nat → Bool)
    (hne : s1 ≠ s2)
    (hp1 : s1.port < 65536) (hp2 : s2.port < 65536) (hpd : dst.port < 65536)
    (hl1 : pl1.length + 8 < 65536) (hl2 : pl2.length + 8 < 65536)
    (ha0 : acceptOk 0 = true) (ha1 : acceptOk 1 = true) :
    exitOfRun (runLoop acceptOk initLoopState
        [CapResult.packet (mkFrame s1 dst pl1 []),
          CapResult.packet (mkFrame s2 dst pl2 []),
          CapResult.rderror]) = some ExitCode.ok ∧
    (0, ConnState.Active) ∈ (stateOfRun (runLoop acceptOk initLoopState
        [CapResult.packet (mkFrame s1 dst pl1 []),
          CapResult.packet (mkFrame s2 dst pl2 []),
          CapResult.rderror]) initLoopState).ep.connections ∧
    (1, ConnState.Active) ∈ (stateOfRun (runLoop acceptOk initLoopState
        [CapResult.packet (mkFrame s1 dst pl1 []),
          CapResult.packet (mkFrame s2 dst pl2 []),
          CapResult.rderror]) initLoopState).ep.connections := by
  have hne' : ¬(s2 = s1) := fun h => hne h.symm
  have hrun : runLoop acceptOk initLoopState
      [CapResult.packet (mkFrame s1 dst pl1 []),
        CapResult.packet (mkFrame s2 dst pl2 []),
        CapResult.rderror] =
      some (ExitCode.ok,
        { ep := { seen := [(s2, 1), (s1, 0)],
                  connections := [(1, ConnState.Active), (0, ConnState.Active)],
                  nextHandle := 2 },
          credCounter := 3,
          startupCredId := 0,
          admissions := [(1, 2), (0, 1)],
          framesProcessed := 2 }) := by
    simp only [runLoop, parse_mkFrame s1 dst pl1 [] hp1 hpd hl1,
      parse_mkFrame s2 dst pl2 [] hp2 hpd hl2]
    simp [initLoopState, EndpointM.handle, EndpointM.accept, findHandle,
      hne', ha0, ha1]
  rw [hrun]
  refine ⟨rfl, ?_, ?_⟩ <;> simp [stateOfRun]

/-- Witness for C4 on the two concrete handshake frames from exSrc and
exSrcB with an engine accepting everything. -/
theorem c4_two_admissions_two_handles_witness :
    exitOfRun (runLoop alwaysOk initLoopState
        [CapResult.packet (mkFrame exSrc exDst exPayload []),
          CapResult.packet (mkFrame exSrcB exDst exPayload []),
          CapResult.rderror]) = some ExitCode.ok ∧
    (0, ConnState.Active) ∈ (stateOfRun (runLoop alwaysOk initLoopState
        [CapResult.packet (mkFrame exSrc exDst exPayload []),
          CapResult.packet (mkFrame exSrcB exDst exPayload []),
          CapResult.rderror]) initLoopState).ep.connections ∧
    (1, ConnState.Active) ∈ (stateOfRun (runLoop alwaysOk initLoopState
        [CapResult.packet (mkFrame exSrc exDst exPayload []),
          CapResult.packet (mkFrame exSrcB exDst exPayload []),
          CapResult.rderror]) initLoopState).ep.connections :=
  c4_two_admissions_two_handles exSrc exSrcB exDst exPayload exPayload alwaysOk
    (by decide) (by decide) (by decide) (by decide) (by decide) (by decide)
    rfl rfl

/-- C10: every admitted connection is passed a server credential minted
at that very admission: in any run of main, the credentials recorded in
the admission log are pairwise distinct and none of them is the startup
credential installed at endpoint creation.  Credential generation
(rcgen) is external randomness, modelled as a counter that yields a
fresh identity per call. -/
theorem c10_fresh_credential_per_admission (filterOk : Bool)
    (acceptOk : Nat → Bool) (tr : List CapResult) (c : ExitCode)
    (st : LoopState)
    (h : mainModel true true filterOk acceptOk tr = some (c, some st)) :
    (∀ pr ∈ st.admissions, pr.2 ≠ st.startupCredId) ∧
    (st.admissions.map Prod.snd).Pairwise (fun a b => a ≠ b) := by
  have hrun : runLoop acceptOk initLoopState tr = some (c, st) := by
    simp only [mainModel] at h
    cases hr : runLoop acceptOk initLoopState tr with
    | none => rw [hr] at h; cases h
    | some v =>
      obtain ⟨c2, st2⟩ := v
      rw [hr] at h
      simp only [Option.some.injEq, Prod.mk.injEq] at h
      obtain ⟨rfl, rfl⟩ := h
      rfl
  have hinv : CredInv st :=
    runLoop_credInv acceptOk tr initLoopState c st
      ⟨Nat.zero_lt_one, by simp [initLoopState], by simp [initLoopState]⟩ hrun
  obtain ⟨-, h2, h3⟩ := hinv
  exact ⟨fun pr hpr => ne_of_gt (h2 pr hpr).1, h3⟩

/-- Witness for C10: in the run admitting one connection, the credential
passed to accept (identity 1) differs from the startup credential. -/
theorem c10_fresh_credential_per_admission_witness :
    ((0 : Nat), (1 : Nat)).2 ≠ (finalStateOf (mainModel true true true alwaysOk
      [CapResult.packet exFrameA, CapResult.rderror])).startupCredId :=
  (c10_fresh_credential_per_admission true alwaysOk
      [CapResult.packet exFrameA, CapResult.rderror] ExitCode.ok
      (finalStateOf (mainModel true true true alwaysOk
        [CapResult.packet exFrameA, CapResult.rderror])) rfl).1
    (0, 1) (by decide)

end QuicMon
